import Mathlib

/-!
Verification development for the HWN-Karte map generator (`plot.py`).

The script loads a CSV table of stamp locations, classifies each record by
completion status, groups markers into status layers and challenge layers,
and plots GPX tracks with round-robin colors.  The definitions below are a
shallow embedding of the pure logic of that script: table cells become a
`Value` type, a row is an ordered association list of column name to value,
the localization `Translator` is the locale dictionary, and the folium side
effects are represented by the data the script hands to folium (group
targets, labels, colors, popup strings, track events).
-/

namespace HWN

/-- A cell of the data table: a numeric value (pandas parses the CSV flag
columns as floats, modelled as rationals), a string, or a missing value
(`NaN` for an empty cell).  Comparisons with `1` follow Python semantics:
only the number `1` compares equal to `1`. -/
inductive Value where
  | num (q : Rat)
  | str (s : String)
  | nan
deriving DecidableEq, Repr

/-- `value == 1` in Python: true exactly for the numeric value 1. -/
def Value.isOne : Value → Bool
  | .num q => q == 1
  | _ => false

/-- The locale dictionary loaded from the localization JSON file. -/
abbrev Translator := List (String × String)

/-- `Translator.translate`: look the key up in the locale; an unresolved key
renders literally. -/
def translate (locale : Translator) (key : String) : String :=
  match locale.lookup key with
  | some v => v
  | none => key

/-- One row of the table: the ordered list of (column name, cell value)
pairs, in the table's column order (`row.index` order). -/
abbrev Row := List (String × Value)

/-- `row[col]` for a pandas row: the value at the column.  A missing column
is modelled as `NaN` (never equal to 1). -/
def rowGet (row : Row) (key : String) : Value :=
  (row.lookup key).getD .nan

/-- `StampStatus` enum of the script, in declaration order
(`VISITED = 0, MAIN = 1, THEME = 2, BONUS = 3`). -/
inductive StampStatus where
  | VISITED
  | MAIN
  | THEME
  | BONUS
deriving DecidableEq, Repr

/-- The `.value` of the enum member, used to index the marker color list. -/
def StampStatus.value : StampStatus → Nat
  | .VISITED => 0
  | .MAIN => 1
  | .THEME => 2
  | .BONUS => 3

/-- `StampCount`: per-challenge totals (pandas sums are floats, modelled as
rationals). -/
structure StampCount where
  total : Rat
  visited : Rat
deriving DecidableEq, Repr

/-- `get_stamp_type`: visited flag first, then the main-challenge flag, then
`1 in row.values` (NOTE: this scans every cell of the row, identity columns
included), else `BONUS`. -/
def get_stamp_type (row : Row) (tr : Translator) : StampStatus :=
  if (rowGet row (translate tr "COL_VISITED")).isOne then .VISITED
  else if (rowGet row (translate tr "COL_MAIN_CHALLENGE")).isOne then .MAIN
  else if row.any (fun p => p.2.isOne) then .THEME
  else .BONUS

/-- `is_special_col`: the five configured column names that are not
challenge columns. -/
def is_special_col (col : String) (tr : Translator) : Bool :=
  [translate tr "COL_LAT", translate tr "COL_LON",
   translate tr "COL_NAME", translate tr "COL_ID",
   translate tr "COL_VISITED"].contains col

/-- `df.columns` of the table: the column list shared by its rows (taken
from the first row; every row of a well-formed table carries the same
columns). -/
def df_columns (df : List Row) : List String :=
  match df with
  | [] => []
  | row :: _ => row.map Prod.fst

/-- `df[col].sum()`: sum of the numeric cells of the column, skipping `NaN`
(pandas `sum` default). -/
def colSum : List Row → String → Rat
  | [], _ => 0
  | row :: rest, col =>
    match rowGet row col with
    | .num q => q + colSum rest col
    | _ => colSum rest col

/-- `df[df[COL_VISITED] == 1]`: the rows whose visited flag equals 1. -/
def visitedRows (df : List Row) (tr : Translator) : List Row :=
  df.filter (fun row => (rowGet row (translate tr "COL_VISITED")).isOne)

/-- The per-challenge half of `calculate_stamp_counts`: for every
non-special column, the pair of `df[category].sum()` and
`df[df[COL_VISITED] == 1][category].sum()`. -/
def challenge_counts (df : List Row) (tr : Translator) :
    List (String × StampCount) :=
  ((df_columns df).filter (fun col => !is_special_col col tr)).map
    (fun col => (col, ⟨colSum df col, colSum (visitedRows df tr) col⟩))

/-- The per-status half of `calculate_stamp_counts`: tally of
`get_stamp_type` over all rows. -/
def general_counts (df : List Row) (tr : Translator) (s : StampStatus) : Nat :=
  (df.filter (fun row => get_stamp_type row tr == s)).length

/-- `calculate_stamp_counts`: both halves together. -/
def calculate_stamp_counts (df : List Row) (tr : Translator) :
    List (String × StampCount) × (StampStatus → Nat) :=
  (challenge_counts df tr, general_counts df tr)

/-- Interleave the pieces of a format string (split at the placeholders)
with the arguments; surplus placeholders after the arguments run out are
dropped together with the argument slot. -/
def joinInterleave : List String → List String → String
  | [], _ => ""
  | [p], _ => p
  | p :: ps, [] => p ++ joinInterleave ps []
  | p :: ps, a :: rest => p ++ a ++ joinInterleave ps rest

/-- Python `s.format(args...)` for plain `\x7b\x7d` placeholders: replace
the placeholders left to right by the arguments. -/
def pyFormat (s : String) (args : List String) : String :=
  joinInterleave (s.splitOn "\x7b\x7d") args

/-- Python `int(q)`: truncation toward zero. -/
def intOfRat (q : Rat) : Int :=
  Int.tdiv q.num q.den

/-- Python `str(value)` as used in popup formatting. -/
def Value.toStr : Value → String
  | .num q => toString q
  | .str s => s
  | .nan => "nan"

/-- `build_challenge_groups`: one toggle group per non-special column, its
label carrying `visited/total`, created hidden (`show=False`).  The result
is the group key together with (label, initial visibility). -/
def build_challenge_groups (df : List Row) (counts : List (String × StampCount))
    (tr : Translator) : List (String × String × Bool) :=
  ((df_columns df).filter (fun col => !is_special_col col tr)).map
    (fun col =>
      let count := (counts.lookup col).getD ⟨0, 0⟩
      (col,
       pyFormat (translate tr "CHALLENGE_TITLE")
         [col, toString (intOfRat count.visited), toString (intOfRat count.total)],
       false))

/-- `build_status_groups`: one toggle group per status, its label carrying
the live count; only the `VISITED` group starts shown. -/
def build_status_groups (gc : StampStatus → Nat) (tr : Translator) :
    List (StampStatus × String × Bool) :=
  [(StampStatus.VISITED, translate tr "STAMP_STATUS_VISITED"),
   (StampStatus.MAIN, translate tr "STAMP_STATUS_MAIN"),
   (StampStatus.THEME, translate tr "STAMP_STATUS_THEME"),
   (StampStatus.BONUS, translate tr "STAMP_STATUS_BONUS")].map
    (fun p =>
      (p.1,
       pyFormat (translate tr "STAMP_STATUS") [pyFormat p.2 [toString (gc p.1)]],
       p.1 == StampStatus.VISITED))

/-- The column names joined into the popup's challenge list: every column
whose value equals 1, except the visited column, in row (column) order. -/
def active_challenge_cols (row : Row) (tr : Translator) : List String :=
  (row.filter
    (fun p => p.2.isOne && p.1 != translate tr "COL_VISITED")).map Prod.fst

/-- `build_marker_popup`: header with id and name, then the active-column
list, with spaces and hyphens HTML-escaped. -/
def build_marker_popup (row : Row) (tr : Translator) : String :=
  let active := "</br>- ".intercalate (active_challenge_cols row tr)
  let header :=
    pyFormat "<b><u>Nr. \x7b\x7d</u></br>\x7b\x7d</b>"
      [(rowGet row (translate tr "COL_ID")).toStr,
       (rowGet row (translate tr "COL_NAME")).toStr]
  let popup := if active ≠ "" then header ++ "</br>- " ++ active else header
  (popup.replace " " "&nbsp;").replace "-" "&#8209;"

/-- `marker_colors` of `build_markers`, indexed by `StampStatus.value`. -/
def marker_colors : List String := ["green", "red", "orange", "gray"]

/-- What `build_markers` emits for one row: the marker data and its group
targets — the one status group chosen by `get_stamp_type` and one challenge
group per non-special column whose value equals 1, in column order. -/
structure MarkerEmit where
  status : StampStatus
  color : String
  popup : String
  challengeGroups : List String
deriving DecidableEq, Repr

/-- `build_markers`: one `MarkerEmit` per row of the table. -/
def build_markers (df : List Row) (tr : Translator) : List MarkerEmit :=
  df.map (fun row =>
    let markerType := get_stamp_type row tr
    { status := markerType
      color := marker_colors.getD markerType.value ""
      popup := build_marker_popup row tr
      challengeGroups :=
        ((row.filter (fun p => p.2.isOne)).map Prod.fst).filter
          (fun col => !is_special_col col tr) })

/-- One GPX track point. -/
structure GpxPoint where
  latitude : Rat
  longitude : Rat
deriving DecidableEq, Repr

/-- One GPX track: optional name and the point sequences of its segments. -/
structure GpxTrack where
  name : Option String
  segments : List (List GpxPoint)
deriving DecidableEq, Repr

/-- A parsed GPX file: its list of tracks. -/
structure GpxFile where
  tracks : List GpxTrack
deriving DecidableEq, Repr

/-- A track directory as the script sees it: for each filename, the outcome
of `gpxpy.parse` on that file (`none` models the parse raising). -/
abbrev TrackDir := List (String × Option GpxFile)

/-- Lexicographic comparison of character lists by code point, the order
Python's `sorted` uses on strings. -/
def charListLe : List Char → List Char → Bool
  | [], _ => true
  | _ :: _, [] => false
  | a :: as, b :: bs =>
    if a < b then true else if b < a then false else charListLe as bs

/-- `a <= b` on strings, by code points. -/
def strLe (a b : String) : Bool := charListLe a.data b.data

/-- `s.endswith(suffix)`. -/
def strEndsWith (s suffix : String) : Bool :=
  List.isSuffixOf suffix.data s.data

/-- `sorted(os.listdir(directory))`: the entries in lexicographic filename
order (Python's `sorted` is a stable sort, as is `insertionSort`). -/
def sortDir (dir : TrackDir) : TrackDir :=
  List.insertionSort (fun a b => strLe a.1 b.1 = true) dir

/-- `next(itertools.cycle(colors))` after `i` previous draws:
round-robin indexing. -/
def cycleGet (colors : List String) (i : Nat) : String :=
  colors.getD (i % colors.length) ""

/-- What one iteration of `plot_gpx_tracks` does for one file: either the
file's tracks are plotted with the color drawn from the cycle, or the
per-file warning message is printed. -/
inductive TrackEvent where
  | plotted (file : String) (color : String) (tracks : List GpxTrack)
  | warning (file : String)
deriving DecidableEq, Repr

/-- The loop body of `plot_gpx_tracks` over the already-sorted listing:
non-`.gpx` entries are skipped silently, a parse failure prints a warning
and consumes no color, and a parsed `.gpx` file draws the next cycle color
(`i` counts the colors drawn so far). -/
def plotTracksLoop (colors : List String) :
    List (String × Option GpxFile) → Nat → List TrackEvent
  | [], _ => []
  | (file, parsed) :: rest, i =>
    if strEndsWith file ".gpx" then
      match parsed with
      | some gpx =>
          .plotted file (cycleGet colors i) gpx.tracks ::
            plotTracksLoop colors rest (i + 1)
      | none => .warning file :: plotTracksLoop colors rest i
    else plotTracksLoop colors rest i

/-- `plot_gpx_tracks`: process the directory listing in lexicographic
order with a fresh color cycle. -/
def plot_gpx_tracks (colors : List String) (dir : TrackDir) : List TrackEvent :=
  plotTracksLoop colors (sortDir dir) 0

/-- The route palette of `plot_map`. -/
def trail_colors : List String := ["blue", "green", "red", "purple"]

/-- The tours palette of `plot_map`. -/
def finished_tour_colors : List String := ["black"]

/-- The data `plot_map` hands to folium, as far as the table and track
logic determine it: the labelled status and challenge groups, the marker
emissions with their group targets, and the track events of both
directories. -/
structure MapOutput where
  statusGroups : List (StampStatus × String × Bool)
  challengeGroups : List (String × String × Bool)
  markers : List MarkerEmit
  routeEvents : List TrackEvent
  tourEvents : List TrackEvent
  toursGroupLabel : String
deriving DecidableEq, Repr

/-- `plot_map` (its pure content): classify and aggregate, build the
groups, emit the markers, then plot both track directories. -/
def plot_map (df : List Row) (routesDir toursDir : TrackDir)
    (tr : Translator) : MapOutput :=
  let counts := calculate_stamp_counts df tr
  { statusGroups := build_status_groups counts.2 tr
    challengeGroups := build_challenge_groups df counts.1 tr
    markers := build_markers df tr
    routeEvents := plot_gpx_tracks trail_colors routesDir
    tourEvents := plot_gpx_tracks finished_tour_colors toursDir
    toursGroupLabel := translate tr "FINISHED_TOURS" }

/-- `load_csv_data`: the parameter is the filesystem outcome of
`pandas.read_csv` (`none` models `FileNotFoundError`).  Returns the frame
together with the messages printed: the file-not-found warning yields an
empty frame. -/
def load_csv_data (readResult : Option (List Row)) (tr : Translator)
    (filePath : String) : List Row × List String :=
  match readResult with
  | some df => (df, [])
  | none => ([], [pyFormat (translate tr "FILE_NOT_FOUND") [filePath]])

/-- Outcome of one run of `main`: the messages printed and the output file
written, if any. -/
structure RunResult where
  messages : List String
  outputWritten : Option String
deriving DecidableEq, Repr

/-- `main` after argument parsing: load the table; if it is empty (file
missing or zero rows) print the no-data message and return without writing;
otherwise build the map, write the output file and print the success
message. -/
def main_flow (readResult : Option (List Row)) (tr : Translator)
    (csvPath outputPath : String) : RunResult :=
  let loaded := load_csv_data readResult tr csvPath
  if loaded.1.isEmpty then
    { messages := loaded.2 ++ [translate tr "NO_DATA_TO_PLOT"]
      outputWritten := none }
  else
    { messages :=
        loaded.2 ++ [pyFormat (translate tr "MAP_SAVED_SUCCESSFULLY") [outputPath]]
      outputWritten := some outputPath }

/-! ### Concrete fixtures

A locale with the column names documented in the script's docstring
(`Lat`, `Long`, `Name`, `ID`, `Besucht`, `Harzer Wandernadel`), and sample
rows, tables and track directories used in counterexamples and witnesses. -/

/-- The documented German column-name configuration. -/
def deLocale : Translator :=
  [("COL_LAT", "Lat"), ("COL_LON", "Long"), ("COL_NAME", "Name"),
   ("COL_ID", "ID"), ("COL_VISITED", "Besucht"),
   ("COL_MAIN_CHALLENGE", "Harzer Wandernadel")]

/-- An unvisited record with no challenge flag at all, whose `ID` cell is
the number 1 (the first stamp of the catalog). -/
def row_id1 : Row :=
  [("Lat", .num 51), ("Long", .num 10), ("Name", .str "X"), ("ID", .num 1),
   ("Besucht", .nan), ("Harzer Wandernadel", .nan), ("Stempelspass", .nan)]

/-- A visited record of stamp 1 that also carries the main-challenge
flag. -/
def row_id1_visited : Row :=
  [("Lat", .num 51), ("Long", .num 10), ("Name", .str "X"), ("ID", .num 1),
   ("Besucht", .num 1), ("Harzer Wandernadel", .num 1), ("Stempelspass", .nan)]

/-- A visited row whose only flag is the visited flag. -/
def row_visited_only : Row :=
  [("Lat", .num 52), ("Long", .num 11), ("Name", .str "Y"), ("ID", .num 7),
   ("Besucht", .num 1), ("Harzer Wandernadel", .nan), ("Stempelspass", .num 1)]

/-- A row with no cell equal to 1 at all. -/
def row_blank : Row :=
  [("Lat", .num 52), ("Long", .num 11), ("Name", .str "Z"), ("ID", .num 9),
   ("Besucht", .nan), ("Harzer Wandernadel", .nan), ("Stempelspass", .nan)]

/-- A two-row sample table. -/
def sample_df : List Row := [row_id1_visited, row_visited_only]

/-! ### C1 — classification precedence -/

/-- C1 (counterexample): the claim "otherwise, if at least one other
challenge flag is set, THEME; otherwise BONUS" fails on the code.  On an
unvisited record with no challenge flag set at all but whose `ID` cell is
the number 1, `get_stamp_type` returns `THEME` (because `1 in row.values`
scans every cell, identity columns included) where the claim demands
`BONUS`. -/
theorem c1_raw_value_counterexample :
    (rowGet row_id1 (translate deLocale "COL_VISITED")).isOne = false ∧
    (rowGet row_id1 (translate deLocale "COL_MAIN_CHALLENGE")).isOne = false ∧
    row_id1.filter (fun p => !is_special_col p.1 deLocale && p.2.isOne) = [] ∧
    get_stamp_type row_id1 deLocale = StampStatus.THEME ∧
    StampStatus.THEME ≠ StampStatus.BONUS := by
  refine ⟨rfl, rfl, rfl, rfl, by decide⟩

/-- C1 (amended): `get_stamp_type` is total and deterministic and follows
the fixed precedence — visited flag ⇒ `VISITED` (regardless of any other
cell); otherwise main-challenge flag ⇒ `MAIN`; otherwise, if the value 1
appears among the row's raw cell values (any column, challenge or not) ⇒
`THEME`; otherwise ⇒ `BONUS`. -/
theorem c1_classify_precedence (row : Row) (tr : Translator) :
    ((rowGet row (translate tr "COL_VISITED")).isOne = true →
      get_stamp_type row tr = StampStatus.VISITED) ∧
    ((rowGet row (translate tr "COL_VISITED")).isOne = false →
      (rowGet row (translate tr "COL_MAIN_CHALLENGE")).isOne = true →
      get_stamp_type row tr = StampStatus.MAIN) ∧
    ((rowGet row (translate tr "COL_VISITED")).isOne = false →
      (rowGet row (translate tr "COL_MAIN_CHALLENGE")).isOne = false →
      row.any (fun p => p.2.isOne) = true →
      get_stamp_type row tr = StampStatus.THEME) ∧
    ((rowGet row (translate tr "COL_VISITED")).isOne = false →
      (rowGet row (translate tr "COL_MAIN_CHALLENGE")).isOne = false →
      row.any (fun p => p.2.isOne) = false →
      get_stamp_type row tr = StampStatus.BONUS) := by
  refine ⟨fun h1 => ?_, fun h1 h2 => ?_, fun h1 h2 h3 => ?_, fun h1 h2 h3 => ?_⟩
  · simp [get_stamp_type, h1]
  · simp [get_stamp_type, h1, h2]
  · simp [get_stamp_type, h1, h2, h3]
  · simp [get_stamp_type, h1, h2, h3]

/-- C1 (witness): the precedence theorem applied to concrete rows — a
visited record classifies as `VISITED`, a fully blank record as `BONUS`. -/
theorem c1_classify_precedence_witness :
    get_stamp_type row_visited_only deLocale = StampStatus.VISITED ∧
    get_stamp_type row_blank deLocale = StampStatus.BONUS :=
  ⟨(c1_classify_precedence row_visited_only deLocale).1 rfl,
   (c1_classify_precedence row_blank deLocale).2.2.2 rfl rfl rfl⟩

/-! ### C2 — popup challenge list -/

/-- In a row whose column names are distinct, two entries with the same
column name are the same entry. -/
theorem pair_eq_of_nodup_fst {l : Row} (h : (l.map Prod.fst).Nodup)
    {p q : String × Value} (hp : p ∈ l) (hq : q ∈ l) (hfst : p.1 = q.1) :
    p = q := by
  induction l with
  | nil => cases hp
  | cons a t ih =>
    simp only [List.map_cons, List.nodup_cons] at h
    rcases List.mem_cons.mp hp with hp1 | hp1 <;>
      rcases List.mem_cons.mp hq with hq1 | hq1
    · rw [hp1, hq1]
    · exfalso
      apply h.1
      rw [hp1] at hfst
      rw [hfst]
      exact List.mem_map_of_mem Prod.fst hq1
    · exfalso
      apply h.1
      rw [hq1] at hfst
      rw [← hfst]
      exact List.mem_map_of_mem Prod.fst hp1
    · exact ih h.2 hp1 hq1

/-- C2 (counterexample): the claim "the popup label lists exactly the
challenge columns whose flag is set, and no other columns" fails on the
code.  On a visited record of stamp 1 (whose `ID` cell is the number 1)
the popup's challenge list is `["ID", "Harzer Wandernadel"]`: it includes
the identity column `ID`, which is not a challenge column — the code
excludes only the visited column from the listing. -/
theorem c2_popup_counterexample :
    active_challenge_cols row_id1_visited deLocale =
      ["ID", "Harzer Wandernadel"] ∧
    is_special_col "ID" deLocale = true := by
  exact ⟨rfl, by decide⟩

/-- C2 (amended): the popup's challenge list holds, in the table's stable
column order (it is a sublist of the row's column list), exactly the
columns other than the visited column whose cell value equals 1 — in
practice the active challenges, though an identity column whose value
happens to equal 1 is listed as well. -/
theorem c2_popup_columns (row : Row) (tr : Translator)
    (h : (row.map Prod.fst).Nodup) :
    (active_challenge_cols row tr).Sublist (row.map Prod.fst) ∧
    (∀ col v, (col, v) ∈ row →
      (col ∈ active_challenge_cols row tr ↔
        v.isOne = true ∧ col ≠ translate tr "COL_VISITED")) := by
  constructor
  · exact (List.filter_sublist row).map Prod.fst
  · intro col v hmem
    constructor
    · intro hcol
      rcases List.mem_map.mp hcol with ⟨p, hpf, hpc⟩
      have hp := List.mem_filter.mp hpf
      have hpeq : p = (col, v) :=
        pair_eq_of_nodup_fst h hp.1 hmem (by rw [hpc])
      have hcond := hp.2
      rw [hpeq] at hcond
      simp only [Bool.and_eq_true, bne_iff_ne, ne_eq] at hcond
      exact ⟨hcond.1, hcond.2⟩
    · intro hyp
      apply List.mem_map.mpr
      refine ⟨(col, v), List.mem_filter.mpr ⟨hmem, ?_⟩, rfl⟩
      simp only [Bool.and_eq_true, bne_iff_ne, ne_eq]
      exact ⟨hyp.1, hyp.2⟩

/-- C2 (witness): in the concrete visited record of stamp 1, the
main-challenge column is listed because its flag is set. -/
theorem c2_popup_columns_witness :
    "Harzer Wandernadel" ∈ active_challenge_cols row_id1_visited deLocale :=
  ((c2_popup_columns row_id1_visited deLocale (by decide)).2
      "Harzer Wandernadel" (Value.num 1) (by decide)).mpr ⟨rfl, by decide⟩

/-! ### C3, C8, C10 — track processing -/

/-- A sample GPX track. -/
def gpx_track1 : GpxTrack := ⟨some "T1", [[⟨51, 10⟩, ⟨52, 11⟩]]⟩

/-- A sample parsed GPX file. -/
def gpx_file1 : GpxFile := ⟨[gpx_track1]⟩

/-- A directory whose lexicographically first GPX file fails to parse. -/
def brokenDir : TrackDir := [("a.gpx", none), ("b.gpx", some gpx_file1)]

/-- A directory of three well-formed GPX files, listed out of order. -/
def okDir : TrackDir :=
  [("b.gpx", some gpx_file1), ("a.gpx", some gpx_file1),
   ("c.gpx", some gpx_file1)]

/-- A directory mixing a parsed GPX file, a non-GPX file, a failing GPX
file and another parsed GPX file. -/
def mixedDir : TrackDir :=
  [("c.gpx", some gpx_file1), ("a.txt", some gpx_file1), ("b.gpx", none),
   ("a.gpx", some gpx_file1)]

/-- Observation of a plotted-file event: the file, its color, its tracks. -/
def plottedData : TrackEvent → Option (String × String × List GpxTrack)
  | .plotted f c ts => some (f, c, ts)
  | .warning _ => none

/-- Observation of a warning event: the file warned about. -/
def warnData : TrackEvent → Option String
  | .warning f => some f
  | _ => none

/-- The plotted files of the track loop are exactly the `.gpx` entries that
parsed, in listing order, each with the round-robin color of its index
among them (the counter starts at `i`). -/
theorem plotTracksLoop_plotted (colors : List String)
    (l : List (String × Option GpxFile)) :
    ∀ i : Nat,
      (plotTracksLoop colors l i).filterMap plottedData =
        (List.enumFrom i
            (l.filter (fun e => strEndsWith e.1 ".gpx" && e.2.isSome))).map
          (fun p => (p.2.1, cycleGet colors p.1, (p.2.2.getD ⟨[]⟩).tracks)) := by
  induction l with
  | nil => intro i; rfl
  | cons a t ih =>
    intro i
    obtain ⟨fa, pa⟩ := a
    by_cases hg : strEndsWith fa ".gpx" = true
    · cases pa with
      | some g =>
        simp only [plotTracksLoop, hg, if_true, List.filterMap_cons,
          plottedData, List.filter_cons, Option.isSome_some, Bool.and_true,
          List.enumFrom_cons, List.map_cons, Option.getD_some]
        exact congrArg _ (ih (i + 1))
      | none =>
        simp only [plotTracksLoop, hg, if_true, List.filterMap_cons,
          plottedData, List.filter_cons, Option.isSome_none, Bool.and_false]
        exact ih i
    · have hg' : strEndsWith fa ".gpx" = false := by
        revert hg; cases strEndsWith fa ".gpx" <;> simp
      simp only [plotTracksLoop, hg', if_false, Bool.false_and,
        List.filter_cons, cond_false]
      exact ih i

/-- The warned-about files of the track loop are exactly the `.gpx`
entries that failed to parse, in listing order. -/
theorem plotTracksLoop_warnings (colors : List String)
    (l : List (String × Option GpxFile)) :
    ∀ i : Nat,
      (plotTracksLoop colors l i).filterMap warnData =
        (l.filter (fun e => strEndsWith e.1 ".gpx" && e.2.isNone)).map
          Prod.fst := by
  induction l with
  | nil => intro i; rfl
  | cons a t ih =>
    intro i
    obtain ⟨fa, pa⟩ := a
    by_cases hg : strEndsWith fa ".gpx" = true
    · cases pa with
      | some g =>
        simp only [plotTracksLoop, hg, if_true, List.filterMap_cons,
          warnData, List.filter_cons, Option.isNone_some, Bool.and_false]
        exact ih (i + 1)
      | none =>
        simp only [plotTracksLoop, hg, if_true, List.filterMap_cons,
          warnData, List.filter_cons, Option.isNone_none, Bool.and_true,
          List.map_cons]
        exact congrArg _ (ih i)
    · have hg' : strEndsWith fa ".gpx" = false := by
        revert hg; cases strEndsWith fa ".gpx" <;> simp
      simp only [plotTracksLoop, hg', if_false, Bool.false_and,
        List.filter_cons, cond_false]
      exact ih i

/-- On a listing of `.gpx` entries that all parsed, the track loop plots
every file in order with consecutive round-robin colors. -/
theorem plotTracksLoop_all_ok (colors : List String)
    (l : List (String × Option GpxFile)) :
    ∀ i : Nat,
      (∀ e ∈ l, strEndsWith e.1 ".gpx" = true) →
      (∀ e ∈ l, e.2.isSome = true) →
      plotTracksLoop colors l i =
        (List.enumFrom i l).map (fun p =>
          TrackEvent.plotted p.2.1 (cycleGet colors p.1)
            ((p.2.2.getD ⟨[]⟩).tracks)) := by
  induction l with
  | nil => intro i _ _; rfl
  | cons a t ih =>
    intro i hgpx hok
    obtain ⟨fa, pa⟩ := a
    have h1 := hgpx _ (List.mem_cons_self _ _)
    have h2 := hok _ (List.mem_cons_self _ _)
    cases pa with
    | none => simp at h2
    | some g =>
      simp only [plotTracksLoop, h1, if_true, List.enumFrom_cons,
        List.map_cons, Option.getD_some]
      exact congrArg _
        (ih (i + 1) (fun e he => hgpx e (List.mem_cons_of_mem _ he))
          (fun e he => hok e (List.mem_cons_of_mem _ he)))

/-- C3 (counterexample): the claim "the color of each track file is a
deterministic function of the file's position in lexicographic filename
order and the palette length" fails on the code when an earlier file does
not consume a color.  In `brokenDir`, `b.gpx` sits at position 1 of the
lexicographic listing, so the claimed color is `palette[1 mod 2] = green`,
but the code plots it with `blue` because the failing `a.gpx` consumed no
color. -/
theorem c3_position_color_counterexample :
    sortDir brokenDir = [("a.gpx", none), ("b.gpx", some gpx_file1)] ∧
    plot_gpx_tracks ["blue", "green"] brokenDir =
      [TrackEvent.warning "a.gpx",
       TrackEvent.plotted "b.gpx" "blue" gpx_file1.tracks] ∧
    cycleGet ["blue", "green"] (1 % 2) = "green" ∧
    ("blue" : String) ≠ "green" := by
  exact ⟨rfl, rfl, rfl, by decide⟩

/-- C3 (amended): with a nonempty palette, one color is consumed per
successfully parsed `.gpx` file regardless of how many tracks it contains;
in particular, when every file of the directory is a `.gpx` file that
parses successfully, the file at position `i` of the lexicographic listing
is plotted with `palette[i mod palette-length]`. -/
theorem c3_roundrobin_all_parsed (colors : List String) (dir : TrackDir)
    (_hne : colors ≠ [])
    (hgpx : ∀ e ∈ dir, strEndsWith e.1 ".gpx" = true)
    (hok : ∀ e ∈ dir, e.2.isSome = true) :
    plot_gpx_tracks colors dir =
      (sortDir dir).enum.map (fun p =>
        TrackEvent.plotted p.2.1 (cycleGet colors p.1)
          ((p.2.2.getD ⟨[]⟩).tracks)) := by
  have hperm : List.Perm (sortDir dir) dir := List.perm_insertionSort _ dir
  exact plotTracksLoop_all_ok colors (sortDir dir) 0
    (fun e he => hgpx e (hperm.mem_iff.mp he))
    (fun e he => hok e (hperm.mem_iff.mp he))

/-- C3 (witness): three well-formed files against a two-color palette —
`a.gpx` and `b.gpx` take the two palette colors in lexicographic order and
`c.gpx` wraps around to the first color. -/
theorem c3_roundrobin_witness :
    plot_gpx_tracks ["blue", "green"] okDir =
      [TrackEvent.plotted "a.gpx" "blue" gpx_file1.tracks,
       TrackEvent.plotted "b.gpx" "green" gpx_file1.tracks,
       TrackEvent.plotted "c.gpx" "blue" gpx_file1.tracks] :=
  (c3_roundrobin_all_parsed ["blue", "green"] okDir (by decide) (by decide)
      (by decide)).trans (by decide)

/-- C10: with a nonempty palette, the plotted files are exactly the
successfully parsed `.gpx` files of the lexicographic listing, the one at
index `i` among them colored `palette[i mod palette-length]` (one color
per file, none consumed by failures); and the warned-about files are
exactly the `.gpx` files that failed to parse — so a non-`.gpx` file is
ignored entirely, with no warning and no color consumed. -/
theorem c10_color_cycle (colors : List String) (dir : TrackDir)
    (_hne : colors ≠ []) :
    (plot_gpx_tracks colors dir).filterMap plottedData =
      ((sortDir dir).filter
          (fun e => strEndsWith e.1 ".gpx" && e.2.isSome)).enum.map
        (fun p => (p.2.1, cycleGet colors p.1, (p.2.2.getD ⟨[]⟩).tracks)) ∧
    (plot_gpx_tracks colors dir).filterMap warnData =
      ((sortDir dir).filter
          (fun e => strEndsWith e.1 ".gpx" && e.2.isNone)).map Prod.fst :=
  ⟨plotTracksLoop_plotted colors (sortDir dir) 0,
   plotTracksLoop_warnings colors (sortDir dir) 0⟩

/-- C10 (witness): on the mixed directory, `a.gpx` and `c.gpx` (the parsed
`.gpx` files, in order) take colors blue and green, `b.gpx` is warned
about, and `a.txt` appears nowhere. -/
theorem c10_color_cycle_witness :
    (plot_gpx_tracks ["blue", "green"] mixedDir).filterMap plottedData =
      [("a.gpx", "blue", gpx_file1.tracks),
       ("c.gpx", "green", gpx_file1.tracks)] ∧
    (plot_gpx_tracks ["blue", "green"] mixedDir).filterMap warnData =
      ["b.gpx"] := by
  have h := c10_color_cycle ["blue", "green"] mixedDir (by decide)
  exact ⟨h.1.trans (by decide), h.2.trans (by decide)⟩

/-- C8: a `.gpx` file that fails to parse is reported with a per-file
warning, and every `.gpx` file of the directory that parses is still
plotted with some color — a malformed file never aborts processing of the
remaining files. -/
theorem c8_skip_and_continue (colors : List String) (dir : TrackDir) :
    (∀ f : String, (f, (none : Option GpxFile)) ∈ dir →
      strEndsWith f ".gpx" = true →
      TrackEvent.warning f ∈ plot_gpx_tracks colors dir) ∧
    (∀ (f : String) (g : GpxFile), (f, some g) ∈ dir →
      strEndsWith f ".gpx" = true →
      ∃ c, TrackEvent.plotted f c g.tracks ∈ plot_gpx_tracks colors dir) := by
  have hperm : List.Perm (sortDir dir) dir := List.perm_insertionSort _ dir
  constructor
  · intro f hmem hgpx
    have hmem' : (f, (none : Option GpxFile)) ∈ sortDir dir :=
      hperm.mem_iff.mpr hmem
    have hin : f ∈ (plot_gpx_tracks colors dir).filterMap warnData := by
      rw [show (plot_gpx_tracks colors dir).filterMap warnData =
            ((sortDir dir).filter
                (fun e => strEndsWith e.1 ".gpx" && e.2.isNone)).map Prod.fst
          from plotTracksLoop_warnings colors (sortDir dir) 0]
      exact List.mem_map.mpr
        ⟨(f, none), List.mem_filter.mpr ⟨hmem', by simp [hgpx]⟩, rfl⟩
    rcases List.mem_filterMap.mp hin with ⟨e, hein, hesome⟩
    cases e with
    | plotted f' c ts => simp [warnData] at hesome
    | warning f' =>
      simp only [warnData, Option.some.injEq] at hesome
      rw [← hesome]
      exact hein
  · intro f g hmem hgpx
    have hmem' : (f, some g) ∈ sortDir dir := hperm.mem_iff.mpr hmem
    have hf : (f, some g) ∈
        (sortDir dir).filter (fun e => strEndsWith e.1 ".gpx" && e.2.isSome) :=
      List.mem_filter.mpr ⟨hmem', by simp [hgpx]⟩
    have hf' : (f, some g) ∈
        (((sortDir dir).filter
            (fun e => strEndsWith e.1 ".gpx" && e.2.isSome)).enum).map
          Prod.snd := by
      rw [List.enum_map_snd]
      exact hf
    obtain ⟨p, hpmem, hpsnd⟩ := List.mem_map.mp hf'
    have hin : (p.2.1, cycleGet colors p.1, (p.2.2.getD ⟨[]⟩).tracks) ∈
        (plot_gpx_tracks colors dir).filterMap plottedData := by
      rw [show (plot_gpx_tracks colors dir).filterMap plottedData =
            ((sortDir dir).filter
                (fun e => strEndsWith e.1 ".gpx" && e.2.isSome)).enum.map
              (fun q => (q.2.1, cycleGet colors q.1, (q.2.2.getD ⟨[]⟩).tracks))
          from plotTracksLoop_plotted colors (sortDir dir) 0]
      exact List.mem_map.mpr ⟨p, hpmem, rfl⟩
    rw [hpsnd] at hin
    rcases List.mem_filterMap.mp hin with ⟨e, hein, hesome⟩
    cases e with
    | warning f' => simp [plottedData] at hesome
    | plotted f' c ts =>
      simp only [plottedData, Option.some.injEq, Prod.mk.injEq,
        Option.getD_some] at hesome
      obtain ⟨h1, _, h3⟩ := hesome
      refine ⟨c, ?_⟩
      rw [← h1, ← h3]
      exact hein

/-- C8 (witness): in the directory whose first file is malformed, the
malformed `a.gpx` is warned about and the later `b.gpx` is still plotted
with its tracks. -/
theorem c8_skip_and_continue_witness :
    TrackEvent.warning "a.gpx" ∈ plot_gpx_tracks ["blue", "green"] brokenDir ∧
    ∃ c, TrackEvent.plotted "b.gpx" c gpx_file1.tracks ∈
      plot_gpx_tracks ["blue", "green"] brokenDir :=
  ⟨(c8_skip_and_continue ["blue", "green"] brokenDir).1 "a.gpx" (by decide)
      (by decide),
   (c8_skip_and_continue ["blue", "green"] brokenDir).2 "b.gpx" gpx_file1
      (by decide) (by decide)⟩

/-! ### C4 — marker group assignment -/

/-- C4: for every record of the table, `build_markers` emits exactly one
marker entry, filed into exactly one status group — the one chosen by
`get_stamp_type` — with the matching status color, and into exactly the
challenge groups of the non-special columns whose flag is set in the
record (zero, one, or many). -/
theorem c4_marker_groups (df : List Row) (tr : Translator) :
    List.Forall₂
      (fun row e =>
        e.status = get_stamp_type row tr ∧
        e.color = marker_colors.getD (get_stamp_type row tr).value "" ∧
        e.challengeGroups =
          (row.filter
              (fun p => !is_special_col p.1 tr && p.2.isOne)).map Prod.fst ∧
        e.challengeGroups.length =
          ((row.filter (fun p => !is_special_col p.1 tr)).filter
              (fun p => p.2.isOne)).length)
      df (build_markers df tr) := by
  rw [build_markers, List.forall₂_map_right_iff]
  rw [List.forall₂_same]
  intro row _
  have hgroups :
      ((row.filter (fun p => p.2.isOne)).map Prod.fst).filter
          (fun col => !is_special_col col tr) =
        (row.filter (fun p => !is_special_col p.1 tr && p.2.isOne)).map
          Prod.fst := by
    rw [List.filter_map, List.filter_filter]
    apply congrArg
    apply List.filter_congr
    intro p _
    simp only [Function.comp_apply]
  refine ⟨rfl, rfl, hgroups, ?_⟩
  rw [hgroups, List.length_map, List.filter_filter]
  apply congrArg List.length
  exact List.filter_congr (fun p _ => Bool.and_comm _ _)

/-! ### C5 — aggregation consistency -/

/-- A cell of a well-formed boolean flag column: the number 1 or an empty
cell. -/
def boolCell (v : Value) : Bool := v == .num 1 || v == .nan

/-- Over a boolean flag column, the pandas column sum is the number of
rows whose flag is set. -/
theorem colSum_eq_count (df : List Row) (col : String)
    (h : ∀ row ∈ df, boolCell (rowGet row col) = true) :
    colSum df col =
      ((df.filter (fun row => (rowGet row col).isOne)).length : Rat) := by
  induction df with
  | nil => rfl
  | cons r t ih =>
    have hr : rowGet r col = .num 1 ∨ rowGet r col = .nan := by
      have := h r (List.mem_cons_self _ _)
      simp only [boolCell, Bool.or_eq_true, beq_iff_eq] at this
      exact this
    have ht := ih (fun x hx => h x (List.mem_cons_of_mem _ hx))
    rcases hr with h1 | h1
    · have hl : colSum (r :: t) col = 1 + colSum t col := by
        simp only [colSum, h1]
      have hcond : ((fun row => (rowGet row col).isOne) r) = true := by
        simp [h1, Value.isOne]
      rw [hl, List.filter_cons, if_pos hcond, List.length_cons, ht]
      push_cast
      ring
    · have hl : colSum (r :: t) col = colSum t col := by
        simp only [colSum, h1]
      have hcond : ¬ ((fun row => (rowGet row col).isOne) r) = true := by
        simp [h1, Value.isOne]
      rw [hl, List.filter_cons, if_neg hcond, ht]

/-- C5: for every table whose cells in the given column are boolean flags,
the aggregated `StampCount` of that challenge column satisfies
`visited ≤ total`, and `total` equals the number of records whose flag is
set. -/
theorem c5_counts_consistent (df : List Row) (tr : Translator) (col : String)
    (cnt : StampCount)
    (hbool : ∀ row ∈ df, boolCell (rowGet row col) = true)
    (hmem : (col, cnt) ∈ challenge_counts df tr) :
    cnt.visited ≤ cnt.total ∧
    cnt.total =
      ((df.filter (fun row => (rowGet row col).isOne)).length : Rat) := by
  rcases List.mem_map.mp hmem with ⟨c, _, hceq⟩
  obtain ⟨h1, h2⟩ := Prod.mk.injEq .. |>.mp hceq
  subst h1
  rw [← h2]
  dsimp only
  have htot := colSum_eq_count df c hbool
  have hboolv : ∀ row ∈ visitedRows df tr, boolCell (rowGet row c) = true :=
    fun row hr => hbool row (List.mem_filter.mp hr).1
  have hvis := colSum_eq_count (visitedRows df tr) c hboolv
  constructor
  · rw [htot, hvis]
    have hsub :
        ((visitedRows df tr).filter
            (fun row => (rowGet row c).isOne)).Sublist
          (df.filter (fun row => (rowGet row c).isOne)) :=
      List.Sublist.filter _ (List.filter_sublist df)
    exact_mod_cast hsub.length_le
  · exact htot

/-- C5 (witness): on the two-row sample table, the `Stempelspass`
challenge counts one total and one visited record. -/
theorem c5_counts_witness :
    (⟨1, 1⟩ : StampCount).visited ≤ (⟨1, 1⟩ : StampCount).total ∧
    (⟨1, 1⟩ : StampCount).total =
      ((sample_df.filter
          (fun row => (rowGet row "Stempelspass").isOne)).length : Rat) := by
  apply c5_counts_consistent sample_df deLocale "Stempelspass" ⟨1, 1⟩
    (by decide)
  rw [show challenge_counts sample_df deLocale =
      [("Harzer Wandernadel", ⟨1, 1⟩), ("Stempelspass", ⟨1, 1⟩)] from by
    simp +decide only [challenge_counts, df_columns, sample_df,
      row_id1_visited, row_visited_only, visitedRows, colSum, rowGet,
      is_special_col, deLocale, translate, List.lookup, Value.isOne,
      List.filter, List.map, String.reduceBEq, Option.getD_some]
    norm_num]
  exact List.mem_cons_of_mem _ (List.mem_cons_self _ _)

/-! ### C6 — schema exclusion set from the locale -/

/-- Rename every column of a row. -/
def renameRow (ρ : String → String) (row : Row) : Row :=
  row.map (fun p => (ρ p.1, p.2))

/-- Rename every column of a table. -/
def renameDf (ρ : String → String) (df : List Row) : List Row :=
  df.map (renameRow ρ)

/-- Injective renaming commutes with association-list lookup. -/
theorem lookup_renameRow (ρ : String → String)
    (hinj : Function.Injective ρ) (row : Row) (k : String) :
    (renameRow ρ row).lookup (ρ k) = row.lookup k := by
  induction row with
  | nil => rfl
  | cons a t ih =>
    cases a with
    | mk k' v =>
      have h1 : (ρ k == ρ k') = (k == k') := by
        by_cases hk : k = k'
        · simp [hk]
        · have : ρ k ≠ ρ k' := fun h => hk (hinj h)
          simp [hk, this]
      simp only [renameRow, List.map_cons]
      rw [List.lookup_cons, List.lookup_cons, h1]
      cases hkk : (k == k') with
      | true => rfl
      | false => exact ih

/-- Injective renaming commutes with row access. -/
theorem rowGet_renameRow (ρ : String → String)
    (hinj : Function.Injective ρ) (row : Row) (k : String) :
    rowGet (renameRow ρ row) (ρ k) = rowGet row k := by
  unfold rowGet
  rw [lookup_renameRow ρ hinj]

/-- Injective renaming commutes with the column sum. -/
theorem colSum_renameDf (ρ : String → String)
    (hinj : Function.Injective ρ) (df : List Row) (col : String) :
    colSum (renameDf ρ df) (ρ col) = colSum df col := by
  induction df with
  | nil => rfl
  | cons r t ih =>
    simp only [renameDf, List.map_cons, colSum,
      rowGet_renameRow ρ hinj r col]
    rw [show renameDf ρ t = t.map (renameRow ρ) from rfl] at ih
    rw [ih]

/-- The five schema keys the special-column set is built from. -/
def schemaKeys : List String :=
  ["COL_LAT", "COL_LON", "COL_NAME", "COL_ID", "COL_VISITED"]

/-- Under a key-compatible injective renaming, a renamed column is special
in the new locale exactly when the original column is special in the old
one. -/
theorem is_special_col_rename (tr tr' : Translator) (ρ : String → String)
    (hinj : Function.Injective ρ)
    (hkeys : ∀ k ∈ schemaKeys, translate tr' k = ρ (translate tr k))
    (col : String) :
    is_special_col (ρ col) tr' = is_special_col col tr := by
  have hbeq : ∀ a b : String, (ρ a == ρ b) = (a == b) := by
    intro a b
    by_cases h : a = b
    · simp [h]
    · have : ρ a ≠ ρ b := fun hh => h (hinj hh)
      simp [h, this]
  have h1 := hkeys "COL_LAT" (by simp [schemaKeys])
  have h2 := hkeys "COL_LON" (by simp [schemaKeys])
  have h3 := hkeys "COL_NAME" (by simp [schemaKeys])
  have h4 := hkeys "COL_ID" (by simp [schemaKeys])
  have h5 := hkeys "COL_VISITED" (by simp [schemaKeys])
  simp only [is_special_col, List.contains_cons, List.contains_nil,
    h1, h2, h3, h4, h5, hbeq, Bool.or_false]

/-- C6: the non-challenge (special) column set is exactly the five
configured column names — the visited column and the four identity columns,
resolved through the locale — and per-challenge aggregation is invariant
under renaming the table's columns with any injective renaming compatible
with a re-localized schema: the counts are carried over unchanged. -/
theorem c6_locale_schema (tr tr' : Translator) (ρ : String → String)
    (df : List Row) (hinj : Function.Injective ρ)
    (hkeys : ∀ k ∈ schemaKeys, translate tr' k = ρ (translate tr k)) :
    (∀ col : String,
      is_special_col col tr = true ↔
        col ∈ [translate tr "COL_LAT", translate tr "COL_LON",
               translate tr "COL_NAME", translate tr "COL_ID",
               translate tr "COL_VISITED"]) ∧
    challenge_counts (renameDf ρ df) tr' =
      (challenge_counts df tr).map (fun e => (ρ e.1, e.2)) := by
  constructor
  · intro col
    simp [is_special_col]
  · have hcols : df_columns (renameDf ρ df) = (df_columns df).map ρ := by
      cases df with
      | nil => rfl
      | cons r t =>
        simp only [renameDf, List.map_cons, df_columns, renameRow,
          List.map_map]
        rfl
    have hvis : visitedRows (renameDf ρ df) tr' =
        renameDf ρ (visitedRows df tr) := by
      unfold visitedRows renameDf
      rw [hkeys "COL_VISITED" (by simp [schemaKeys])]
      rw [List.filter_map]
      apply congrArg
      apply List.filter_congr
      intro r _
      simp only [Function.comp_apply]
      rw [rowGet_renameRow ρ hinj]
    unfold challenge_counts
    rw [hcols, List.filter_map, List.map_map, List.map_map]
    rw [List.filter_congr
      (fun c _ => by
        simp only [Function.comp_apply]
        rw [is_special_col_rename tr tr' ρ hinj hkeys c])]
    apply List.map_congr_left
    intro c _
    simp only [Function.comp_apply]
    rw [hvis, colSum_renameDf ρ hinj df c,
      colSum_renameDf ρ hinj (visitedRows df tr) c]

/-- C6 (witness): the aggregation equivariance applied to the identity
renaming on the sample table. -/
theorem c6_locale_schema_witness :
    challenge_counts (renameDf id sample_df) deLocale =
      (challenge_counts sample_df deLocale).map (fun e => (id e.1, e.2)) :=
  (c6_locale_schema deLocale deLocale id sample_df (fun _ _ h => h)
      (fun _ _ => rfl)).2

/-! ### C7 — exit behavior -/

/-- C7: when the table file is missing or parses to zero rows, the run
prints the no-data message and writes no output file; otherwise it writes
the output artifact and prints the success message. -/
theorem c7_exit_behavior (readResult : Option (List Row)) (tr : Translator)
    (csvPath outputPath : String) :
    ((readResult = none ∨ readResult = some []) →
      (main_flow readResult tr csvPath outputPath).outputWritten = none ∧
      translate tr "NO_DATA_TO_PLOT" ∈
        (main_flow readResult tr csvPath outputPath).messages) ∧
    (∀ df : List Row, readResult = some df → df ≠ [] →
      (main_flow readResult tr csvPath outputPath).outputWritten =
        some outputPath ∧
      pyFormat (translate tr "MAP_SAVED_SUCCESSFULLY") [outputPath] ∈
        (main_flow readResult tr csvPath outputPath).messages) := by
  constructor
  · rintro (rfl | rfl) <;> simp [main_flow, load_csv_data]
  · rintro df rfl hne
    have hempty : df.isEmpty = false := by
      cases df with
      | nil => exact absurd rfl hne
      | cons a t => rfl
    simp [main_flow, load_csv_data, hempty]

/-- C7 (witness): a missing file writes nothing; the sample table writes
the output artifact. -/
theorem c7_exit_witness :
    (main_flow none deLocale "wandernadel.csv" "map.html").outputWritten =
      none ∧
    (main_flow (some sample_df) deLocale "wandernadel.csv"
        "map.html").outputWritten = some "map.html" :=
  ⟨((c7_exit_behavior none deLocale "wandernadel.csv" "map.html").1
      (Or.inl rfl)).1,
   ((c7_exit_behavior (some sample_df) deLocale "wandernadel.csv"
        "map.html").2 sample_df rfl (by decide)).1⟩

/-! ### C9 — two-run determinism -/

/-- C9: the whole map construction is a pure function of the input table,
the two track directories and the locale: two runs on identical inputs
produce identical group labels, marker-to-group assignments and track
color assignments. -/
theorem c9_determinism (df₁ df₂ : List Row)
    (routes₁ routes₂ tours₁ tours₂ : TrackDir) (tr₁ tr₂ : Translator)
    (hdf : df₁ = df₂) (hroutes : routes₁ = routes₂) (htours : tours₁ = tours₂)
    (htr : tr₁ = tr₂) :
    plot_map df₁ routes₁ tours₁ tr₁ = plot_map df₂ routes₂ tours₂ tr₂ := by
  rw [hdf, hroutes, htours, htr]

/-- C9 (witness): the determinism theorem applied at concrete inputs. -/
theorem c9_determinism_witness :
    plot_map sample_df brokenDir okDir deLocale =
      plot_map sample_df brokenDir okDir deLocale :=
  c9_determinism sample_df sample_df brokenDir brokenDir okDir okDir
    deLocale deLocale rfl rfl rfl rfl

end HWN
